import Mathlib

/-!
Shallow embedding of the zmk-input-processor-axis-constrain core
(src/src/input_processors/input_processor_axis_constrain.c).

The processor filters a stream of relative-motion input events,
constraining motion to a single dominant axis.  We model the per-instance
mutable state (`axis_constrain_data`), the immutable configuration
(`axis_constrain_config`), the accumulator arithmetic, the dominant-axis
arbiter, the two suppression policies, the event-gate entry point and the
release callback, and prove the specification's claims about them.
-/

namespace AxisConstrain

/-- `INT32_MAX` from the C sources. -/
def INT32_MAX : Int := 2147483647

/-- `INT32_MIN` from the C sources. -/
def INT32_MIN : Int := -2147483648

/-- `#define MAX_ACCUM (INT32_MAX / 2)` — saturation bound for accumulators. -/
def MAX_ACCUM : Int := INT32_MAX / 2

/-- `enum axis_state { AXIS_NONE, AXIS_X, AXIS_Y }`. -/
inductive AxisState where
  | none
  | x
  | y
deriving DecidableEq, Repr

/-- `struct axis_constrain_config`: immutable per-instance configuration. -/
structure Config where
  threshold : Int
  sticky : Bool
  release_after_ms : Int
deriving DecidableEq, Repr

/-- `struct axis_constrain_data`: the per-instance mutable state.  The C
struct's `dev` back-pointer and spinlock carry no algorithmic state and are
omitted; the `release_work` delayable work item is modelled by
`pending_release` (the delay in ms of the currently scheduled release, if
any). -/
structure Data where
  locked_axis : AxisState
  accum_x : Int
  accum_y : Int
  abs_accum_x : Int
  abs_accum_y : Int
  pending_release : Option Int
deriving DecidableEq, Repr

/-- `reset_state_locked`: zero the lock and all accumulators. -/
def reset_state_locked (d : Data) : Data :=
  { d with
    locked_axis := AxisState.none
    accum_x := 0
    accum_y := 0
    abs_accum_x := 0
    abs_accum_y := 0 }

/-- `safe_abs`: absolute value with the `INT32_MIN` case mapped to
`INT32_MAX` (since `abs(INT32_MIN)` is undefined behavior in C). -/
def safe_abs (value : Int) : Int :=
  if value = INT32_MIN then INT32_MAX else |value|

/-- `safe_accum_add`: 64-bit-intermediate addition saturated to
`[-MAX_ACCUM, MAX_ACCUM]`. -/
def safe_accum_add (current delta : Int) : Int :=
  let result := current + delta
  if result > MAX_ACCUM then MAX_ACCUM
  else if result < -MAX_ACCUM then -MAX_ACCUM
  else result

/-- `update_accum`: add the delta into the accumulator of the event's axis
and recompute that axis's absolute accumulator. -/
def update_accum (d : Data) (is_x : Bool) (delta : Int) : Data :=
  if is_x then
    let ax := safe_accum_add d.accum_x delta
    { d with accum_x := ax, abs_accum_x := safe_abs ax }
  else
    let ay := safe_accum_add d.accum_y delta
    { d with accum_y := ay, abs_accum_y := safe_abs ay }

/-- `determine_dominant_axis`: the pure arbiter over the two absolute
accumulators and the threshold, preferring X on exact ties. -/
def determine_dominant_axis (d : Data) (threshold : Int) : AxisState :=
  if d.abs_accum_x ≥ threshold ∧ d.abs_accum_x > d.abs_accum_y then
    AxisState.x
  else if d.abs_accum_y ≥ threshold ∧ d.abs_accum_y > d.abs_accum_x then
    AxisState.y
  else if d.abs_accum_x ≥ threshold ∧ d.abs_accum_x = d.abs_accum_y then
    AxisState.x
  else
    AxisState.none

/-- `release_work_handler`: the delayed-release callback.  It resets the
lock and accumulators; the work item that just fired is no longer
pending. -/
def release_work_handler (d : Data) : Data :=
  { reset_state_locked d with pending_release := Option.none }

/-- `handle_sticky_mode`: sticky suppression policy.  Takes the state
(after accumulation) and the incoming event value; returns the updated
state and the (possibly zeroed) event value. -/
def handle_sticky_mode (d : Data) (config : Config) (value : Int) (is_x : Bool) :
    Data × Int :=
  let d1 :=
    if d.locked_axis = AxisState.none then
      { d with locked_axis := determine_dominant_axis d config.threshold }
    else d
  if d1.locked_axis = AxisState.none then
    (d1, 0)
  else if (d1.locked_axis = AxisState.x ∧ is_x = true) ∨
          (d1.locked_axis = AxisState.y ∧ is_x = false) then
    (d1, value)
  else
    (d1, 0)

/-- `handle_non_sticky_mode`: continuous dominant-axis suppression policy
with directional decay on acceptance. -/
def handle_non_sticky_mode (d : Data) (config : Config) (value : Int) (is_x : Bool) :
    Data × Int :=
  let dominant := determine_dominant_axis d config.threshold
  if dominant = AxisState.none then
    (d, 0)
  else if (dominant = AxisState.x ∧ is_x = true) ∨
          (dominant = AxisState.y ∧ is_x = false) then
    if dominant = AxisState.x then
      let d1 := { d with accum_y := 0, abs_accum_y := 0 }
      let d2 :=
        if d1.abs_accum_x > config.threshold then
          { d1 with
            accum_x := if d1.accum_x > 0 then config.threshold else -config.threshold
            abs_accum_x := config.threshold }
        else d1
      (d2, value)
    else
      let d1 := { d with accum_x := 0, abs_accum_x := 0 }
      let d2 :=
        if d1.abs_accum_y > config.threshold then
          { d1 with
            accum_y := if d1.accum_y > 0 then config.threshold else -config.threshold
            abs_accum_y := config.threshold }
        else d1
      (d2, value)
  else
    (d, 0)

/-- `INPUT_EV_REL` (Zephyr input event type for relative-motion events). -/
def INPUT_EV_REL : Nat := 2

/-- `INPUT_REL_X` (Zephyr relative-axis code X). -/
def INPUT_REL_X : Nat := 0

/-- `INPUT_REL_Y` (Zephyr relative-axis code Y). -/
def INPUT_REL_Y : Nat := 1

/-- `struct input_event`: the fields the processor reads or writes. -/
structure InputEvent where
  type : Nat
  code : Nat
  value : Int
deriving DecidableEq, Repr

/-- `axis_constrain_handle_event`: the event-gate entry point.  Returns the
updated state, the (possibly mutated-in-place) event, and the returned
status code (always `0`). -/
def axis_constrain_handle_event (config : Config) (d : Data) (event : InputEvent) :
    Data × InputEvent × Int :=
  if event.type ≠ INPUT_EV_REL then
    (d, event, 0)
  else if event.code ≠ INPUT_REL_X ∧ event.code ≠ INPUT_REL_Y then
    (d, event, 0)
  else
    let is_x : Bool := event.code = INPUT_REL_X
    let d1 := update_accum d is_x event.value
    if config.sticky then
      let d2 := { d1 with pending_release := Option.some config.release_after_ms }
      let r := handle_sticky_mode d2 config event.value is_x
      (r.1, { event with value := r.2 }, 0)
    else
      let r := handle_non_sticky_mode d1 config event.value is_x
      (r.1, { event with value := r.2 }, 0)

/-- The state established by `axis_constrain_init` (which calls
`reset_state_locked` and initializes the not-yet-scheduled release work). -/
def initState : Data :=
  { locked_axis := AxisState.none
    accum_x := 0
    accum_y := 0
    abs_accum_x := 0
    abs_accum_y := 0
    pending_release := Option.none }

/-- `AC_INST` construction: the `BUILD_ASSERT`s reject a configuration with
`threshold ≤ 0` or with sticky mode and `release_after_ms ≤ 0`; otherwise
the instance is created with the given configuration. -/
def AC_INST (threshold : Int) (sticky : Bool) (release_after_ms : Int) :
    Option Config :=
  if threshold > 0 ∧ (sticky = false ∨ release_after_ms > 0) then
    Option.some
      { threshold := threshold, sticky := sticky, release_after_ms := release_after_ms }
  else
    Option.none

/-- An operation on a processor instance: an incoming event (handled by
`axis_constrain_handle_event`) or a firing of the release callback. -/
inductive Op where
  | ev (e : InputEvent)
  | release
deriving DecidableEq, Repr

/-- One operation applied to the state. -/
def stepOp (config : Config) (d : Data) : Op → Data
  | Op.ev e => (axis_constrain_handle_event config d e).1
  | Op.release => release_work_handler d

/-- Run a sequence of operations from a state. -/
def runOps (config : Config) (ops : List Op) (d : Data) : Data :=
  ops.foldl (stepOp config) d

/-- Run a sequence of events (no release firings) from a state. -/
def runEvents (config : Config) (es : List InputEvent) (d : Data) : Data :=
  es.foldl (fun s e => (axis_constrain_handle_event config s e).1) d

/-- The axis (as an `AxisState`) of a qualifying event, from its `is_x`
flag. -/
def axisOf (is_x : Bool) : AxisState :=
  if is_x then AxisState.x else AxisState.y

/-- The accumulator invariant (§8 of the spec): each accumulator is
saturation-bounded and each absolute accumulator equals the saturating
absolute value of its accumulator. -/
def Inv (d : Data) : Prop :=
  |d.accum_x| ≤ MAX_ACCUM ∧ |d.accum_y| ≤ MAX_ACCUM ∧
  d.abs_accum_x = safe_abs d.accum_x ∧ d.abs_accum_y = safe_abs d.accum_y

instance (d : Data) : Decidable (Inv d) := by
  unfold Inv; infer_instance

end AxisConstrain

namespace AxisConstrain

/-! ## Helper lemmas -/

lemma MAX_ACCUM_eq : MAX_ACCUM = 1073741823 := by decide

lemma safe_accum_add_bounds (current delta : Int) :
    -MAX_ACCUM ≤ safe_accum_add current delta ∧
    safe_accum_add current delta ≤ MAX_ACCUM := by
  simp only [safe_accum_add, MAX_ACCUM_eq]
  split_ifs <;> omega

lemma abs_safe_accum_add_le (current delta : Int) :
    |safe_accum_add current delta| ≤ MAX_ACCUM :=
  abs_le.mpr (safe_accum_add_bounds current delta)

lemma safe_abs_of_bounded (v : Int) (h : |v| ≤ MAX_ACCUM) : safe_abs v = |v| := by
  unfold safe_abs
  split_ifs with hmin
  · subst hmin
    rw [MAX_ACCUM_eq] at h
    norm_num [INT32_MIN] at h
  · rfl

lemma safe_abs_zero : safe_abs 0 = 0 := by decide

lemma Inv_initState : Inv initState := by decide

end AxisConstrain

namespace AxisConstrain

/-- C1: the arbiter `determine_dominant_axis` is a pure function of the two
absolute accumulators and the threshold; it returns X when
`absAccumX ≥ threshold` and `absAccumX > absAccumY`, returns Y when
`absAccumY ≥ threshold` and `absAccumY > absAccumX`, returns X (never Y,
never None) when `absAccumX ≥ threshold` and `absAccumX = absAccumY`, and
returns None in every other case. -/
theorem determine_dominant_axis_spec (d : Data) (t : Int) :
    (d.abs_accum_x ≥ t → d.abs_accum_x > d.abs_accum_y →
      determine_dominant_axis d t = AxisState.x) ∧
    (d.abs_accum_y ≥ t → d.abs_accum_y > d.abs_accum_x →
      determine_dominant_axis d t = AxisState.y) ∧
    (d.abs_accum_x ≥ t → d.abs_accum_x = d.abs_accum_y →
      determine_dominant_axis d t = AxisState.x) ∧
    (¬(d.abs_accum_x ≥ t ∧ d.abs_accum_x ≥ d.abs_accum_y) →
     ¬(d.abs_accum_y ≥ t ∧ d.abs_accum_y > d.abs_accum_x) →
      determine_dominant_axis d t = AxisState.none) ∧
    (∀ d' : Data, d'.abs_accum_x = d.abs_accum_x → d'.abs_accum_y = d.abs_accum_y →
      determine_dominant_axis d' t = determine_dominant_axis d t) := by
  unfold determine_dominant_axis
  refine ⟨?_, ?_, ?_, ?_, ?_⟩ <;> intros <;> split_ifs <;>
    first | rfl | omega

/-- Witness for C1 at a concrete tied state. -/
theorem determine_dominant_axis_spec_witness :
    determine_dominant_axis
      { locked_axis := AxisState.none, accum_x := 5, accum_y := -5,
        abs_accum_x := 5, abs_accum_y := 5, pending_release := Option.none }
      5 = AxisState.x :=
  (determine_dominant_axis_spec
      { locked_axis := AxisState.none, accum_x := 5, accum_y := -5,
        abs_accum_x := 5, abs_accum_y := 5, pending_release := Option.none }
      5).2.2.1 (by decide) (by decide)

/-- C8: the release callback resets, from any state, the lock to
`AXIS_NONE` and all four accumulator fields to zero; the resulting state is
exactly the freshly initialized state. -/
theorem release_resets_to_init (d : Data) :
    release_work_handler d = initState := by
  cases d
  rfl

/-- C9: instance construction fails exactly when `threshold ≤ 0` or when
sticky mode is requested with `release_after_ms ≤ 0`, and succeeds for
every configuration with `threshold > 0` and (`sticky` implies
`release_after_ms > 0`). -/
theorem ac_inst_validation (t : Int) (s : Bool) (r : Int) :
    (AC_INST t s r = Option.none ↔ (t ≤ 0 ∨ (s = true ∧ r ≤ 0))) ∧
    ((∃ c : Config, AC_INST t s r = Option.some c) ↔
      (0 < t ∧ (s = true → 0 < r))) := by
  unfold AC_INST
  cases s <;> split_ifs <;> simp_all
  all_goals omega

lemma handle_sticky_mode_value_cases (d : Data) (config : Config) (v : Int) (b : Bool) :
    (handle_sticky_mode d config v b).2 = v ∨ (handle_sticky_mode d config v b).2 = 0 := by
  simp only [handle_sticky_mode]
  split_ifs <;> simp

lemma handle_non_sticky_mode_value_cases (d : Data) (config : Config) (v : Int) (b : Bool) :
    (handle_non_sticky_mode d config v b).2 = v ∨
    (handle_non_sticky_mode d config v b).2 = 0 := by
  simp only [handle_non_sticky_mode]
  split_ifs <;> simp

/-- C10: in both modes and from any state, `handle` never changes an
event's type or code, and the output value is either the original input
value or exactly zero. -/
theorem handle_event_value_frame (config : Config) (d : Data) (e : InputEvent) :
    (axis_constrain_handle_event config d e).2.1.type = e.type ∧
    (axis_constrain_handle_event config d e).2.1.code = e.code ∧
    ((axis_constrain_handle_event config d e).2.1.value = e.value ∨
     (axis_constrain_handle_event config d e).2.1.value = 0) := by
  simp only [axis_constrain_handle_event]
  split_ifs
  · exact ⟨rfl, rfl, Or.inl rfl⟩
  · exact ⟨rfl, rfl, Or.inl rfl⟩
  · refine ⟨rfl, rfl, ?_⟩
    exact handle_sticky_mode_value_cases _ config e.value _
  · refine ⟨rfl, rfl, ?_⟩
    exact handle_non_sticky_mode_value_cases _ config e.value _

lemma handle_event_irrelevant (config : Config) (d : Data) (e : InputEvent)
    (h : e.type ≠ INPUT_EV_REL ∨ (e.code ≠ INPUT_REL_X ∧ e.code ≠ INPUT_REL_Y)) :
    axis_constrain_handle_event config d e = (d, e, 0) := by
  unfold axis_constrain_handle_event
  rcases h with h | h
  · rw [if_pos h]
  · by_cases ht : e.type ≠ INPUT_EV_REL
    · rw [if_pos ht]
    · rw [if_neg ht, if_pos h]

/-- C7: an event that is not a relative-motion event, or whose code is
neither tracked axis, passes through `handle` with status `0`, unchanged,
and with no change to any processor state (lock, accumulators, pending
release); this holds for any number of such events from any state. -/
theorem irrelevant_events_are_noops (config : Config) :
    (∀ (d : Data) (e : InputEvent),
      (e.type ≠ INPUT_EV_REL ∨ (e.code ≠ INPUT_REL_X ∧ e.code ≠ INPUT_REL_Y)) →
      axis_constrain_handle_event config d e = (d, e, 0)) ∧
    (∀ (d : Data) (es : List InputEvent),
      (∀ e ∈ es, e.type ≠ INPUT_EV_REL ∨ (e.code ≠ INPUT_REL_X ∧ e.code ≠ INPUT_REL_Y)) →
      runEvents config es d = d) := by
  refine ⟨handle_event_irrelevant config, ?_⟩
  intro d es h
  induction es generalizing d with
  | nil => rfl
  | cons e es ih =>
    have he := handle_event_irrelevant config d e (h e (List.mem_cons_self e es))
    show runEvents config es (axis_constrain_handle_event config d e).1 = d
    rw [he]
    exact ih d (fun e' he' => h e' (List.mem_cons_of_mem e he'))

/-- Witness for C7: a key-press event (type 1) and a relative event with a
wheel code (8) both leave state and event untouched. -/
theorem irrelevant_events_are_noops_witness :
    axis_constrain_handle_event { threshold := 5, sticky := true, release_after_ms := 100 }
        initState { type := 1, code := 0, value := 7 } =
      (initState, { type := 1, code := 0, value := 7 }, 0) ∧
    runEvents { threshold := 5, sticky := true, release_after_ms := 100 }
        [{ type := 1, code := 0, value := 7 }, { type := 2, code := 8, value := -3 }]
        initState = initState :=
  ⟨(irrelevant_events_are_noops { threshold := 5, sticky := true, release_after_ms := 100 }).1
      initState { type := 1, code := 0, value := 7 } (by decide),
   (irrelevant_events_are_noops { threshold := 5, sticky := true, release_after_ms := 100 }).2
      initState
      [{ type := 1, code := 0, value := 7 }, { type := 2, code := 8, value := -3 }]
      (by decide)⟩

lemma update_accum_locked (d : Data) (b : Bool) (delta : Int) :
    (update_accum d b delta).locked_axis = d.locked_axis := by
  simp only [update_accum]
  split_ifs <;> rfl

lemma handle_sticky_mode_of_locked (d : Data) (config : Config) (v : Int) (b : Bool)
    (h : d.locked_axis ≠ AxisState.none) :
    handle_sticky_mode d config v b =
      (d, if (d.locked_axis = AxisState.x ∧ b = true) ∨
             (d.locked_axis = AxisState.y ∧ b = false) then v else 0) := by
  simp only [handle_sticky_mode, if_neg h]
  split_ifs <;> simp_all

lemma handle_event_sticky_locked (config : Config) (hs : config.sticky = true)
    (d : Data) (e : InputEvent) (htype : e.type = INPUT_EV_REL)
    (hcode : e.code = INPUT_REL_X ∨ e.code = INPUT_REL_Y)
    (h : d.locked_axis ≠ AxisState.none) :
    axis_constrain_handle_event config d e =
      ({ update_accum d (decide (e.code = INPUT_REL_X)) e.value with
          pending_release := Option.some config.release_after_ms },
       { e with value := if (d.locked_axis = AxisState.x ∧ e.code = INPUT_REL_X) ∨
                            (d.locked_axis = AxisState.y ∧ e.code = INPUT_REL_Y)
                         then e.value else 0 }, 0) := by
  simp only [axis_constrain_handle_event, if_neg (by simp [htype] : ¬e.type ≠ INPUT_EV_REL)]
  have hcodes : ¬(e.code ≠ INPUT_REL_X ∧ e.code ≠ INPUT_REL_Y) := by
    rcases hcode with h1 | h1 <;> simp [h1]
  rw [if_neg hcodes, if_pos hs]
  have hlock2 : ({ update_accum d (decide (e.code = INPUT_REL_X)) e.value with
      pending_release := Option.some config.release_after_ms } : Data).locked_axis ≠
      AxisState.none := by
    simpa [update_accum_locked] using h
  rw [handle_sticky_mode_of_locked _ config _ _ hlock2]
  have hlockeq : ({ update_accum d (decide (e.code = INPUT_REL_X)) e.value with
      pending_release := Option.some config.release_after_ms } : Data).locked_axis =
      d.locked_axis := by
    simp [update_accum_locked]
  rw [hlockeq]
  rcases hcode with h1 | h1 <;> simp [h1, INPUT_REL_X, INPUT_REL_Y, update_accum_locked]

/-- C2: in sticky mode, once the lock is held by axis A, every qualifying
event on the other axis is zeroed, every qualifying event on axis A passes
through unchanged, and the lock stays A across any sequence of handled
events. -/
theorem sticky_lock_persistence (config : Config) (hs : config.sticky = true)
    (A : AxisState) (hA : A ≠ AxisState.none) :
    (∀ (d : Data) (e : InputEvent), d.locked_axis = A →
      e.type = INPUT_EV_REL → (e.code = INPUT_REL_X ∨ e.code = INPUT_REL_Y) →
      (axis_constrain_handle_event config d e).1.locked_axis = A ∧
      (axis_constrain_handle_event config d e).2.1.value =
        (if (A = AxisState.x ∧ e.code = INPUT_REL_X) ∨
            (A = AxisState.y ∧ e.code = INPUT_REL_Y) then e.value else 0)) ∧
    (∀ (d : Data) (es : List InputEvent), d.locked_axis = A →
      (runEvents config es d).locked_axis = A) := by
  have hstep : ∀ (d : Data) (e : InputEvent), d.locked_axis = A →
      (axis_constrain_handle_event config d e).1.locked_axis = A := by
    intro d e hd
    by_cases hrel : e.type ≠ INPUT_EV_REL ∨ (e.code ≠ INPUT_REL_X ∧ e.code ≠ INPUT_REL_Y)
    · rw [handle_event_irrelevant config d e hrel]
      exact hd
    · push_neg at hrel
      obtain ⟨htype, hcode⟩ := hrel
      have hcode2 : e.code = INPUT_REL_X ∨ e.code = INPUT_REL_Y := by
        by_cases hx : e.code = INPUT_REL_X
        · exact Or.inl hx
        · exact Or.inr (hcode hx)
      rw [handle_event_sticky_locked config hs d e htype hcode2 (by rw [hd]; exact hA)]
      simpa [update_accum_locked] using hd
  refine ⟨?_, ?_⟩
  · intro d e hd htype hcode
    refine ⟨hstep d e hd, ?_⟩
    rw [handle_event_sticky_locked config hs d e htype hcode (by rw [hd]; exact hA)]
    simp [hd]
  · intro d es hd
    induction es generalizing d with
    | nil => exact hd
    | cons e es ih => exact ih _ (hstep d e hd)

/-- Witness for C2: locked to X, a Y event of value 20 is zeroed, an X event
of value 3 passes, and the lock survives both. -/
theorem sticky_lock_persistence_witness :
    ((axis_constrain_handle_event { threshold := 10, sticky := true, release_after_ms := 150 }
        { locked_axis := AxisState.x, accum_x := 12, accum_y := 0,
          abs_accum_x := 12, abs_accum_y := 0, pending_release := Option.some 150 }
        { type := 2, code := 1, value := 20 }).2.1.value =
      (if (AxisState.x = AxisState.x ∧ (1 : Nat) = INPUT_REL_X) ∨
          (AxisState.x = AxisState.y ∧ (1 : Nat) = INPUT_REL_Y)
       then (20 : Int) else 0)) ∧
    (runEvents { threshold := 10, sticky := true, release_after_ms := 150 }
        [{ type := 2, code := 1, value := 20 }, { type := 2, code := 0, value := 3 }]
        { locked_axis := AxisState.x, accum_x := 12, accum_y := 0,
          abs_accum_x := 12, abs_accum_y := 0, pending_release := Option.some 150 }).locked_axis =
      AxisState.x :=
  ⟨((sticky_lock_persistence { threshold := 10, sticky := true, release_after_ms := 150 }
        rfl AxisState.x (by decide)).1
      { locked_axis := AxisState.x, accum_x := 12, accum_y := 0,
        abs_accum_x := 12, abs_accum_y := 0, pending_release := Option.some 150 }
      { type := 2, code := 1, value := 20 } rfl rfl (Or.inr rfl)).2,
   (sticky_lock_persistence { threshold := 10, sticky := true, release_after_ms := 150 }
        rfl AxisState.x (by decide)).2
      { locked_axis := AxisState.x, accum_x := 12, accum_y := 0,
        abs_accum_x := 12, abs_accum_y := 0, pending_release := Option.some 150 }
      [{ type := 2, code := 1, value := 20 }, { type := 2, code := 0, value := 3 }] rfl⟩

lemma determine_dominant_axis_pending (d : Data) (p : Option Int) (t : Int) :
    determine_dominant_axis { d with pending_release := p } t =
      determine_dominant_axis d t := rfl

lemma handle_sticky_mode_of_unlocked (d : Data) (config : Config) (v : Int) (b : Bool)
    (h : d.locked_axis = AxisState.none) :
    handle_sticky_mode d config v b =
      ({ d with locked_axis := determine_dominant_axis d config.threshold },
       if determine_dominant_axis d config.threshold = AxisState.none then 0
       else if determine_dominant_axis d config.threshold = axisOf b then v else 0) := by
  simp only [handle_sticky_mode, if_pos h]
  cases b <;> cases hdom : determine_dominant_axis d config.threshold <;>
    simp_all [axisOf]

lemma handle_event_sticky_unlocked (config : Config) (hs : config.sticky = true)
    (d : Data) (e : InputEvent) (hlock : d.locked_axis = AxisState.none)
    (htype : e.type = INPUT_EV_REL)
    (hcode : e.code = INPUT_REL_X ∨ e.code = INPUT_REL_Y) :
    axis_constrain_handle_event config d e =
      ({ update_accum d (decide (e.code = INPUT_REL_X)) e.value with
          pending_release := Option.some config.release_after_ms
          locked_axis := determine_dominant_axis
            (update_accum d (decide (e.code = INPUT_REL_X)) e.value) config.threshold },
       { e with value :=
          (if determine_dominant_axis
              (update_accum d (decide (e.code = INPUT_REL_X)) e.value) config.threshold =
              AxisState.none then 0
          else if determine_dominant_axis
              (update_accum d (decide (e.code = INPUT_REL_X)) e.value) config.threshold =
              axisOf (decide (e.code = INPUT_REL_X)) then e.value else 0) }, 0) := by
  simp only [axis_constrain_handle_event, if_neg (by simp [htype] : ¬e.type ≠ INPUT_EV_REL)]
  have hcodes : ¬(e.code ≠ INPUT_REL_X ∧ e.code ≠ INPUT_REL_Y) := by
    rcases hcode with h1 | h1 <;> simp [h1]
  rw [if_neg hcodes, if_pos hs]
  have hlock2 : ({ update_accum d (decide (e.code = INPUT_REL_X)) e.value with
      pending_release := Option.some config.release_after_ms } : Data).locked_axis =
      AxisState.none := by
    simpa [update_accum_locked] using hlock
  rw [handle_sticky_mode_of_unlocked _ config _ _ hlock2]
  rw [determine_dominant_axis_pending]

/-- C5: in sticky mode while unlocked, the lock after a qualifying event is
exactly what the arbiter returns on the post-accumulation state; `None`
keeps the state unlocked and zeroes the event, and a returned axis is
committed on that same event, which passes through exactly when its axis is
the newly locked one. -/
theorem sticky_unlocked_commit (config : Config) (hs : config.sticky = true)
    (d : Data) (e : InputEvent) (hlock : d.locked_axis = AxisState.none)
    (htype : e.type = INPUT_EV_REL)
    (hcode : e.code = INPUT_REL_X ∨ e.code = INPUT_REL_Y) :
    (axis_constrain_handle_event config d e).1.locked_axis =
      determine_dominant_axis (update_accum d (decide (e.code = INPUT_REL_X)) e.value)
        config.threshold ∧
    (determine_dominant_axis (update_accum d (decide (e.code = INPUT_REL_X)) e.value)
        config.threshold = AxisState.none →
      (axis_constrain_handle_event config d e).2.1.value = 0) ∧
    (∀ A : AxisState, A ≠ AxisState.none →
      determine_dominant_axis (update_accum d (decide (e.code = INPUT_REL_X)) e.value)
        config.threshold = A →
      (axis_constrain_handle_event config d e).2.1.value =
        (if A = axisOf (decide (e.code = INPUT_REL_X)) then e.value else 0)) := by
  rw [handle_event_sticky_unlocked config hs d e hlock htype hcode]
  refine ⟨by simp, ?_, ?_⟩
  · intro h
    simp [h]
  · intro A hA hdom
    simp [hdom, hA]

/-- Witness for C5: threshold 10, unlocked with `accumX = 6`; an X event of
value 6 pushes `absAccumX` to 12, the arbiter returns X, the lock commits
to X and the event passes through. -/
theorem sticky_unlocked_commit_witness :
    (axis_constrain_handle_event { threshold := 10, sticky := true, release_after_ms := 150 }
        { locked_axis := AxisState.none, accum_x := 6, accum_y := 0,
          abs_accum_x := 6, abs_accum_y := 0, pending_release := Option.some 150 }
        { type := 2, code := 0, value := 6 }).1.locked_axis = AxisState.x ∧
    (axis_constrain_handle_event { threshold := 10, sticky := true, release_after_ms := 150 }
        { locked_axis := AxisState.none, accum_x := 6, accum_y := 0,
          abs_accum_x := 6, abs_accum_y := 0, pending_release := Option.some 150 }
        { type := 2, code := 0, value := 6 }).2.1.value = 6 := by
  have h := sticky_unlocked_commit
      { threshold := 10, sticky := true, release_after_ms := 150 } rfl
      { locked_axis := AxisState.none, accum_x := 6, accum_y := 0,
        abs_accum_x := 6, abs_accum_y := 0, pending_release := Option.some 150 }
      { type := 2, code := 0, value := 6 } rfl rfl (Or.inl rfl)
  have hdom : determine_dominant_axis
      (update_accum
        { locked_axis := AxisState.none, accum_x := 6, accum_y := 0,
          abs_accum_x := 6, abs_accum_y := 0, pending_release := Option.some 150 }
        (decide ((({ type := 2, code := 0, value := 6 } : InputEvent)).code = INPUT_REL_X))
        (({ type := 2, code := 0, value := 6 } : InputEvent)).value)
      ({ threshold := 10, sticky := true, release_after_ms := 150 } : Config).threshold =
      AxisState.x := by decide
  refine ⟨?_, ?_⟩
  · rw [h.1]
    exact hdom
  · rw [h.2.2 AxisState.x (by decide) hdom]
    decide

lemma handle_non_sticky_mode_suppressed (d : Data) (config : Config) (v : Int) (b : Bool)
    (h : determine_dominant_axis d config.threshold ≠ axisOf b) :
    handle_non_sticky_mode d config v b = (d, 0) := by
  cases b <;> cases hdom : determine_dominant_axis d config.threshold <;>
    simp_all [handle_non_sticky_mode, axisOf]

lemma handle_non_sticky_mode_accept_x (d : Data) (config : Config) (v : Int)
    (hdom : determine_dominant_axis d config.threshold = AxisState.x) :
    handle_non_sticky_mode d config v true =
      (if d.abs_accum_x > config.threshold then
        { d with
          accum_y := 0
          abs_accum_y := 0
          accum_x := (if d.accum_x > 0 then config.threshold else -config.threshold)
          abs_accum_x := config.threshold }
       else { d with accum_y := 0, abs_accum_y := 0 }, v) := by
  simp only [handle_non_sticky_mode, hdom]
  split_ifs <;> simp_all

lemma handle_non_sticky_mode_accept_y (d : Data) (config : Config) (v : Int)
    (hdom : determine_dominant_axis d config.threshold = AxisState.y) :
    handle_non_sticky_mode d config v false =
      (if d.abs_accum_y > config.threshold then
        { d with
          accum_x := 0
          abs_accum_x := 0
          accum_y := (if d.accum_y > 0 then config.threshold else -config.threshold)
          abs_accum_y := config.threshold }
       else { d with accum_x := 0, abs_accum_x := 0 }, v) := by
  simp only [handle_non_sticky_mode, hdom]
  split_ifs <;> simp_all

/-- C6: in non-sticky mode, when a qualifying event's axis is not the axis
the arbiter returns on the post-accumulation state, the event value is
zeroed and the state is exactly the post-accumulation state: no decay,
zeroing, or clamping touches either accumulator pair. -/
theorem non_sticky_suppressed_frame (config : Config) (hs : config.sticky = false)
    (d : Data) (e : InputEvent) (htype : e.type = INPUT_EV_REL)
    (hcode : e.code = INPUT_REL_X ∨ e.code = INPUT_REL_Y)
    (hdiff : determine_dominant_axis
        (update_accum d (decide (e.code = INPUT_REL_X)) e.value) config.threshold ≠
        axisOf (decide (e.code = INPUT_REL_X))) :
    axis_constrain_handle_event config d e =
      (update_accum d (decide (e.code = INPUT_REL_X)) e.value,
       { e with value := 0 }, 0) := by
  simp only [axis_constrain_handle_event, if_neg (by simp [htype] : ¬e.type ≠ INPUT_EV_REL)]
  have hcodes : ¬(e.code ≠ INPUT_REL_X ∧ e.code ≠ INPUT_REL_Y) := by
    rcases hcode with h1 | h1 <;> simp [h1]
  rw [if_neg hcodes, if_neg (by simp [hs] : ¬config.sticky = true)]
  rw [handle_non_sticky_mode_suppressed _ config _ _ hdiff]

/-- Witness for C6: threshold 5, `accumY = 9` dominant; an X event of value
3 is zeroed and the post-accumulation accumulators (3, 9) survive
untouched. -/
theorem non_sticky_suppressed_frame_witness :
    axis_constrain_handle_event { threshold := 5, sticky := false, release_after_ms := 0 }
        { locked_axis := AxisState.none, accum_x := 0, accum_y := 9,
          abs_accum_x := 0, abs_accum_y := 9, pending_release := Option.none }
        { type := 2, code := 0, value := 3 } =
      (update_accum
        { locked_axis := AxisState.none, accum_x := 0, accum_y := 9,
          abs_accum_x := 0, abs_accum_y := 9, pending_release := Option.none }
        (decide ((({ type := 2, code := 0, value := 3 } : InputEvent)).code = INPUT_REL_X))
        (({ type := 2, code := 0, value := 3 } : InputEvent)).value,
       { type := 2, code := 0, value := 0 }, 0) :=
  non_sticky_suppressed_frame { threshold := 5, sticky := false, release_after_ms := 0 }
    rfl
    { locked_axis := AxisState.none, accum_x := 0, accum_y := 9,
      abs_accum_x := 0, abs_accum_y := 9, pending_release := Option.none }
    { type := 2, code := 0, value := 3 } rfl (Or.inl rfl) (by decide)

/-- C3: in non-sticky mode, an event on the arbiter's axis passes through
unchanged; afterwards the non-dominant axis's accumulator pair is exactly
zero, the dominant accumulator is clamped to magnitude exactly the
threshold (keeping its sign) when it exceeded the threshold and is
unchanged otherwise, and its magnitude ends at most the threshold. -/
theorem non_sticky_accept_decay (d : Data) (config : Config) (v : Int) (b : Bool)
    (hinv : Inv d) (ht : 0 < config.threshold)
    (hdom : determine_dominant_axis d config.threshold = axisOf b) :
    (handle_non_sticky_mode d config v b).2 = v ∧
    (b = true →
      (handle_non_sticky_mode d config v b).1.accum_y = 0 ∧
      (handle_non_sticky_mode d config v b).1.abs_accum_y = 0 ∧
      (d.abs_accum_x > config.threshold →
        (handle_non_sticky_mode d config v b).1.abs_accum_x = config.threshold ∧
        (0 < d.accum_x →
          (handle_non_sticky_mode d config v b).1.accum_x = config.threshold) ∧
        (d.accum_x < 0 →
          (handle_non_sticky_mode d config v b).1.accum_x = -config.threshold)) ∧
      (d.abs_accum_x ≤ config.threshold →
        (handle_non_sticky_mode d config v b).1.accum_x = d.accum_x ∧
        (handle_non_sticky_mode d config v b).1.abs_accum_x = d.abs_accum_x) ∧
      |(handle_non_sticky_mode d config v b).1.accum_x| ≤ config.threshold) ∧
    (b = false →
      (handle_non_sticky_mode d config v b).1.accum_x = 0 ∧
      (handle_non_sticky_mode d config v b).1.abs_accum_x = 0 ∧
      (d.abs_accum_y > config.threshold →
        (handle_non_sticky_mode d config v b).1.abs_accum_y = config.threshold ∧
        (0 < d.accum_y →
          (handle_non_sticky_mode d config v b).1.accum_y = config.threshold) ∧
        (d.accum_y < 0 →
          (handle_non_sticky_mode d config v b).1.accum_y = -config.threshold)) ∧
      (d.abs_accum_y ≤ config.threshold →
        (handle_non_sticky_mode d config v b).1.accum_y = d.accum_y ∧
        (handle_non_sticky_mode d config v b).1.abs_accum_y = d.abs_accum_y) ∧
      |(handle_non_sticky_mode d config v b).1.accum_y| ≤ config.threshold) := by
  obtain ⟨hbx, hby, hax, hay⟩ := hinv
  have habsx : d.abs_accum_x = |d.accum_x| := by rw [hax, safe_abs_of_bounded _ hbx]
  have habsy : d.abs_accum_y = |d.accum_y| := by rw [hay, safe_abs_of_bounded _ hby]
  cases b with
  | true =>
    rw [handle_non_sticky_mode_accept_x d config v hdom]
    refine ⟨rfl, ?_, by intro h; exact Bool.noConfusion h⟩
    intro _
    split_ifs with hgt hpos
    · dsimp only
      refine ⟨rfl, rfl, fun _ => ⟨rfl, fun _ => rfl, fun hneg => absurd hneg (by omega)⟩,
        fun hle => absurd hle (not_le.mpr hgt), ?_⟩
      rw [abs_of_pos ht]
    · dsimp only
      refine ⟨rfl, rfl, fun _ => ⟨rfl, fun hp => absurd hp (by omega), fun _ => rfl⟩,
        fun hle => absurd hle (not_le.mpr hgt), ?_⟩
      rw [abs_neg, abs_of_pos ht]
    · dsimp only
      refine ⟨rfl, rfl, fun h => absurd h hgt, fun _ => ⟨rfl, rfl⟩, ?_⟩
      rw [← habsx]
      omega
  | false =>
    rw [handle_non_sticky_mode_accept_y d config v hdom]
    refine ⟨rfl, by intro h; exact Bool.noConfusion h, ?_⟩
    intro _
    split_ifs with hgt hpos
    · dsimp only
      refine ⟨rfl, rfl, fun _ => ⟨rfl, fun _ => rfl, fun hneg => absurd hneg (by omega)⟩,
        fun hle => absurd hle (not_le.mpr hgt), ?_⟩
      rw [abs_of_pos ht]
    · dsimp only
      refine ⟨rfl, rfl, fun _ => ⟨rfl, fun hp => absurd hp (by omega), fun _ => rfl⟩,
        fun hle => absurd hle (not_le.mpr hgt), ?_⟩
      rw [abs_neg, abs_of_pos ht]
    · dsimp only
      refine ⟨rfl, rfl, fun h => absurd h hgt, fun _ => ⟨rfl, rfl⟩, ?_⟩
      rw [← habsy]
      omega

/-- Witness for C3: threshold 5, `accumX = 8` dominant; an X event of value
2 passes through, `accumY` zeroes, `accumX` clamps down to 5. -/
theorem non_sticky_accept_decay_witness :
    (handle_non_sticky_mode
        { locked_axis := AxisState.none, accum_x := 8, accum_y := 3,
          abs_accum_x := 8, abs_accum_y := 3, pending_release := Option.none }
        { threshold := 5, sticky := false, release_after_ms := 0 } 2 true).2 = 2 ∧
    (handle_non_sticky_mode
        { locked_axis := AxisState.none, accum_x := 8, accum_y := 3,
          abs_accum_x := 8, abs_accum_y := 3, pending_release := Option.none }
        { threshold := 5, sticky := false, release_after_ms := 0 } 2 true).1.accum_y = 0 ∧
    (handle_non_sticky_mode
        { locked_axis := AxisState.none, accum_x := 8, accum_y := 3,
          abs_accum_x := 8, abs_accum_y := 3, pending_release := Option.none }
        { threshold := 5, sticky := false, release_after_ms := 0 } 2 true).1.accum_x = 5 := by
  have h := non_sticky_accept_decay
      { locked_axis := AxisState.none, accum_x := 8, accum_y := 3,
        abs_accum_x := 8, abs_accum_y := 3, pending_release := Option.none }
      { threshold := 5, sticky := false, release_after_ms := 0 } 2 true
      (by decide) (by decide) (by decide)
  exact ⟨h.1, (h.2.1 rfl).1, ((h.2.1 rfl).2.2.1 (by decide)).2.1 (by decide)⟩

lemma update_accum_Inv (d : Data) (b : Bool) (delta : Int) (h : Inv d) :
    Inv (update_accum d b delta) := by
  obtain ⟨hbx, hby, hax, hay⟩ := h
  cases b with
  | false => exact ⟨hbx, abs_safe_accum_add_le _ _, hax, rfl⟩
  | true => exact ⟨abs_safe_accum_add_le _ _, hby, rfl, hay⟩

lemma handle_sticky_mode_accums (d : Data) (config : Config) (v : Int) (b : Bool) :
    (handle_sticky_mode d config v b).1.accum_x = d.accum_x ∧
    (handle_sticky_mode d config v b).1.accum_y = d.accum_y ∧
    (handle_sticky_mode d config v b).1.abs_accum_x = d.abs_accum_x ∧
    (handle_sticky_mode d config v b).1.abs_accum_y = d.abs_accum_y := by
  simp only [handle_sticky_mode]
  split_ifs <;> simp

lemma Inv_of_fields (d d' : Data) (h1 : d'.accum_x = d.accum_x)
    (h2 : d'.accum_y = d.accum_y) (h3 : d'.abs_accum_x = d.abs_accum_x)
    (h4 : d'.abs_accum_y = d.abs_accum_y) (h : Inv d) : Inv d' := by
  obtain ⟨ha, hb, hc, he⟩ := h
  refine ⟨?_, ?_, ?_, ?_⟩
  · rw [h1]; exact ha
  · rw [h2]; exact hb
  · rw [h3, h1]; exact hc
  · rw [h4, h2]; exact he

lemma zero_abs_le_MAX : |(0 : Int)| ≤ MAX_ACCUM := by decide

lemma zero_eq_safe_abs_zero : (0 : Int) = safe_abs 0 := by decide

lemma handle_non_sticky_mode_Inv (d : Data) (config : Config) (v : Int) (b : Bool)
    (h : Inv d) (ht : 0 < config.threshold) :
    Inv (handle_non_sticky_mode d config v b).1 := by
  obtain ⟨hbx, hby, hax, hay⟩ := h
  have habsx : d.abs_accum_x = |d.accum_x| := by rw [hax, safe_abs_of_bounded _ hbx]
  have habsy : d.abs_accum_y = |d.accum_y| := by rw [hay, safe_abs_of_bounded _ hby]
  by_cases hd : determine_dominant_axis d config.threshold = axisOf b
  · cases b with
    | true =>
      rw [handle_non_sticky_mode_accept_x d config v hd]
      split_ifs with hgt hp
      · have htM : config.threshold < MAX_ACCUM := by
          rw [habsx] at hgt
          omega
        refine ⟨?_, zero_abs_le_MAX, ?_, zero_eq_safe_abs_zero⟩
        · show |config.threshold| ≤ MAX_ACCUM
          rw [abs_of_pos ht]
          omega
        · show config.threshold = safe_abs config.threshold
          rw [safe_abs_of_bounded _ (by rw [abs_of_pos ht]; omega), abs_of_pos ht]
      · have htM : config.threshold < MAX_ACCUM := by
          rw [habsx] at hgt
          omega
        refine ⟨?_, zero_abs_le_MAX, ?_, zero_eq_safe_abs_zero⟩
        · show |-config.threshold| ≤ MAX_ACCUM
          rw [abs_neg, abs_of_pos ht]
          omega
        · show config.threshold = safe_abs (-config.threshold)
          rw [safe_abs_of_bounded _ (by rw [abs_neg, abs_of_pos ht]; omega), abs_neg,
            abs_of_pos ht]
      · exact ⟨hbx, zero_abs_le_MAX, hax, zero_eq_safe_abs_zero⟩
    | false =>
      rw [handle_non_sticky_mode_accept_y d config v hd]
      split_ifs with hgt hp
      · have htM : config.threshold < MAX_ACCUM := by
          rw [habsy] at hgt
          omega
        refine ⟨zero_abs_le_MAX, ?_, zero_eq_safe_abs_zero, ?_⟩
        · show |config.threshold| ≤ MAX_ACCUM
          rw [abs_of_pos ht]
          omega
        · show config.threshold = safe_abs config.threshold
          rw [safe_abs_of_bounded _ (by rw [abs_of_pos ht]; omega), abs_of_pos ht]
      · have htM : config.threshold < MAX_ACCUM := by
          rw [habsy] at hgt
          omega
        refine ⟨zero_abs_le_MAX, ?_, zero_eq_safe_abs_zero, ?_⟩
        · show |-config.threshold| ≤ MAX_ACCUM
          rw [abs_neg, abs_of_pos ht]
          omega
        · show config.threshold = safe_abs (-config.threshold)
          rw [safe_abs_of_bounded _ (by rw [abs_neg, abs_of_pos ht]; omega), abs_neg,
            abs_of_pos ht]
      · exact ⟨zero_abs_le_MAX, hby, zero_eq_safe_abs_zero, hay⟩
  · rw [handle_non_sticky_mode_suppressed _ _ _ _ hd]
    exact ⟨hbx, hby, hax, hay⟩

lemma handle_event_state (config : Config) (d : Data) (e : InputEvent)
    (htype : e.type = INPUT_EV_REL)
    (hcode : e.code = INPUT_REL_X ∨ e.code = INPUT_REL_Y) :
    (axis_constrain_handle_event config d e).1 =
      (if config.sticky then
        (handle_sticky_mode
          { update_accum d (decide (e.code = INPUT_REL_X)) e.value with
            pending_release := Option.some config.release_after_ms } config e.value
          (decide (e.code = INPUT_REL_X))).1
       else
        (handle_non_sticky_mode (update_accum d (decide (e.code = INPUT_REL_X)) e.value)
          config e.value (decide (e.code = INPUT_REL_X))).1) := by
  simp only [axis_constrain_handle_event, if_neg (by simp [htype] : ¬e.type ≠ INPUT_EV_REL)]
  have hcodes : ¬(e.code ≠ INPUT_REL_X ∧ e.code ≠ INPUT_REL_Y) := by
    rcases hcode with h1 | h1 <;> simp [h1]
  rw [if_neg hcodes]
  split_ifs <;> rfl

lemma stepOp_Inv (config : Config) (ht : 0 < config.threshold) (d : Data) (op : Op)
    (h : Inv d) : Inv (stepOp config d op) := by
  cases op with
  | release => exact Inv_initState
  | ev e =>
    by_cases hrel : e.type ≠ INPUT_EV_REL ∨ (e.code ≠ INPUT_REL_X ∧ e.code ≠ INPUT_REL_Y)
    · show Inv (axis_constrain_handle_event config d e).1
      rw [handle_event_irrelevant config d e hrel]
      exact h
    · push_neg at hrel
      obtain ⟨htype, hcode⟩ := hrel
      have hcode2 : e.code = INPUT_REL_X ∨ e.code = INPUT_REL_Y := by
        by_cases hx : e.code = INPUT_REL_X
        · exact Or.inl hx
        · exact Or.inr (hcode hx)
      show Inv (axis_constrain_handle_event config d e).1
      rw [handle_event_state config d e htype hcode2]
      have h1 : Inv (update_accum d (decide (e.code = INPUT_REL_X)) e.value) :=
        update_accum_Inv d _ e.value h
      split_ifs with hst
      · obtain ⟨e1, e2, e3, e4⟩ := handle_sticky_mode_accums
          { update_accum d (decide (e.code = INPUT_REL_X)) e.value with
            pending_release := Option.some config.release_after_ms } config e.value
          (decide (e.code = INPUT_REL_X))
        exact Inv_of_fields _ _ e1 e2 e3 e4 h1
      · exact handle_non_sticky_mode_Inv _ config e.value _ h1 ht

lemma runOps_Inv (config : Config) (ht : 0 < config.threshold) (ops : List Op)
    (d : Data) (h : Inv d) : Inv (runOps config ops d) := by
  induction ops generalizing d with
  | nil => exact h
  | cons op ops ih => exact ih _ (stepOp_Inv config ht d op h)

/-- C4: for every operation sequence from the initial state (events in
either mode, release firings), each accumulator stays bounded by
`MAX_ACCUM` in magnitude and each absolute accumulator equals the
saturating absolute value of its accumulator — including for a delta of
`INT32_MIN`. -/
theorem accumulator_invariant (config : Config) (ht : 0 < config.threshold)
    (ops : List Op) :
    |(runOps config ops initState).accum_x| ≤ MAX_ACCUM ∧
    |(runOps config ops initState).accum_y| ≤ MAX_ACCUM ∧
    (runOps config ops initState).abs_accum_x =
      safe_abs (runOps config ops initState).accum_x ∧
    (runOps config ops initState).abs_accum_y =
      safe_abs (runOps config ops initState).accum_y :=
  runOps_Inv config ht ops initState Inv_initState

/-- Witness for C4: one X event carrying `INT32_MIN`. -/
theorem accumulator_invariant_witness :
    (0 : Int) < 5 ∧
    |(runOps { threshold := 5, sticky := false, release_after_ms := 0 }
        [Op.ev { type := 2, code := 0, value := INT32_MIN }] initState).accum_x| ≤
      MAX_ACCUM :=
  ⟨by decide,
   (accumulator_invariant { threshold := 5, sticky := false, release_after_ms := 0 }
      (by decide) [Op.ev { type := 2, code := 0, value := INT32_MIN }]).1⟩
